import Mathlib

/-!
Shallow embedding of the credential-verification engine of the
`prozlab_backend` repository: the SMS OTP service
(`app/services/sms_service.py`, in-memory backend), the phone OTP service
(`app/modules/auth/services/otp_service.py`), the password-reset OTP
repository and service
(`app/modules/auth/repositories/password_reset_otp_repository.py`,
`app/modules/auth/services/otp_service.py`), the email verification service
(`app/modules/auth/services/email_service.py`, in-memory backend) and the
password-reset issuance service
(`app/modules/auth/services/password_reset_service.py`).

Time is modelled as seconds (`Nat`); `datetime.utcnow()` is an explicit
`now` parameter.  Python dicts used as key-value stores are modelled as
association lists with Python's update-in-place/delete semantics.  Random
draws (`random.choices`, `random.randint`) are explicit parameters that
range over the sampler's support.
-/

namespace ProzVerify

/-! ### Association-list store helpers (Python dict semantics) -/

/-- Dict lookup: first (and only, for dict-shaped lists) binding of `key`. -/
def lookupA {α : Type} : List (String × α) → String → Option α
  | [], _ => none
  | (k, v) :: rest, key => if k = key then some v else lookupA rest key

/-- Dict assignment `d[key] = v`: update in place, else append. -/
def setA {α : Type} : List (String × α) → String → α → List (String × α)
  | [], key, v => [(key, v)]
  | (k, w) :: rest, key, v =>
    if k = key then (key, v) :: rest else (k, w) :: setA rest key v

/-- Dict deletion `del d[key]`: removes the binding of `key`, if present. -/
def eraseA {α : Type} : List (String × α) → String → List (String × α)
  | [], _ => []
  | (k, w) :: rest, key => if k = key then rest else (k, w) :: eraseA rest key

/-! ### Settings (`app/config/settings.py`) -/

def OTP_EXPIRE_MINUTES : Nat := 5
def OTP_LENGTH : Nat := 6
def MAX_OTP_ATTEMPTS : Nat := 3

/-! ### SMS OTP service (`app/services/sms_service.py`, in-memory backend)

`otp_storage` entries hold the OTP data dict plus the storage-level absolute
expiry computed by `_store_data` (`utcnow() + expire_seconds`); `_get_data`
returns the data only while `now < expires_at`, deleting the entry
otherwise.  `rate_limit_storage` is the same shape with a count payload. -/

structure SmsOtpData where
  code : String
  attempts : Nat
  createdAt : Nat
  expiresAt : Nat
deriving DecidableEq

structure SmsEntry where
  data : SmsOtpData
  storeExpiresAt : Nat
deriving DecidableEq

def SmsStore : Type := List (String × SmsEntry)

structure RlEntry where
  count : Nat
  storeExpiresAt : Nat
deriving DecidableEq

def RlStore : Type := List (String × RlEntry)

def smsOtpKey (phone : String) : String := "otp:" ++ phone

def smsRlKey (phone : String) : String := "otp_rate_limit:" ++ phone

/-- `SMSService._get_data` on the OTP storage (in-memory path): return the
payload while the entry is unexpired at storage level, else delete it. -/
def smsGetData (now : Nat) (store : List (String × SmsEntry)) (key : String) :
    Option SmsOtpData × List (String × SmsEntry) :=
  match lookupA store key with
  | none => (none, store)
  | some e => if now < e.storeExpiresAt then (some e.data, store)
              else (none, eraseA store key)

/-- `SMSService._get_data` on the rate-limit storage. -/
def rlGetData (now : Nat) (store : List (String × RlEntry)) (key : String) :
    Option Nat × List (String × RlEntry) :=
  match lookupA store key with
  | none => (none, store)
  | some e => if now < e.storeExpiresAt then (some e.count, store)
              else (none, eraseA store key)

/-- `SMSService._check_rate_limit`: allowed when there is no live counter or
its count is below 3 (max 3 SMS per hour). -/
def smsCheckRateLimit (now : Nat) (rl : List (String × RlEntry)) (phone : String) :
    Bool × List (String × RlEntry) :=
  match rlGetData now rl (smsRlKey phone) with
  | (none, rl') => (true, rl')
  | (some c, rl') => (decide (c < 3), rl')

/-- `SMSService._increment_rate_limit`: read the live count (default 0), add
one, and re-store with a fresh 3600-second expiry. -/
def smsIncrementRateLimit (now : Nat) (rl : List (String × RlEntry)) (phone : String) :
    List (String × RlEntry) :=
  let key := smsRlKey phone
  match rlGetData now rl key with
  | (cur, rl') => setA rl' key ⟨cur.getD 0 + 1, now + 3600⟩

inductive SmsVerifyResult where
  | otpNotFound
  | otpExpired
  | maxAttemptsExceeded
  | invalidOtp (remainingAttempts : Nat)
  | success
deriving DecidableEq

/-- `SMSService.verify_otp` (in-memory backend, development mode): not-found,
expiry, attempts-exhaustion, then comparison; deletes the credential on
expiry, exhaustion and success; re-stores with incremented attempts and the
remaining lifetime on a failed comparison with attempts left. -/
def smsVerifyOtp (now : Nat) (store : List (String × SmsEntry))
    (phone code : String) : SmsVerifyResult × List (String × SmsEntry) :=
  let key := smsOtpKey phone
  match smsGetData now store key with
  | (none, store') => (.otpNotFound, store')
  | (some d, store') =>
    if d.expiresAt < now then
      (.otpExpired, eraseA store' key)
    else if MAX_OTP_ATTEMPTS ≤ d.attempts then
      (.maxAttemptsExceeded, eraseA store' key)
    else if d.code = code then
      (.success, eraseA store' key)
    else
      let d' : SmsOtpData := { d with attempts := d.attempts + 1 }
      let remaining := MAX_OTP_ATTEMPTS - d'.attempts
      if 0 < remaining then
        (.invalidOtp remaining,
          setA store' key ⟨d', now + (d.expiresAt - now)⟩)
      else
        (.maxAttemptsExceeded, eraseA store' key)

inductive SmsSendResult where
  | rateLimitExceeded
  | sent (code : String)
deriving DecidableEq

/-- `SMSService.send_otp` (development mode): rate-limit check, store the
fresh OTP under `otp:{phone}` with a `OTP_EXPIRE_MINUTES` lifetime, then
record the issuance in the rate limiter.  The random code drawn by
`generate_otp` is the explicit `freshCode` argument. -/
def smsSendOtp (now : Nat) (store : List (String × SmsEntry))
    (rl : List (String × RlEntry)) (phone freshCode : String) :
    SmsSendResult × List (String × SmsEntry) × List (String × RlEntry) :=
  match smsCheckRateLimit now rl phone with
  | (false, rl') => (.rateLimitExceeded, store, rl')
  | (true, rl') =>
    let d : SmsOtpData :=
      ⟨freshCode, 0, now, now + OTP_EXPIRE_MINUTES * 60⟩
    let store' := setA store (smsOtpKey phone) ⟨d, now + OTP_EXPIRE_MINUTES * 60⟩
    (.sent freshCode, store', smsIncrementRateLimit now rl' phone)

/-! ### Phone OTP service (`app/modules/auth/services/otp_service.py`)

`OTPService.otp_storage` is a plain dict keyed by phone number with no
storage-level TTL; entries are the OTP dicts written by `send_otp`. -/

structure PhoneOtp where
  code : String
  purpose : String
  expiresAt : Nat
  attempts : Nat
  maxAttempts : Nat
deriving DecidableEq

inductive PhoneVerifyResult where
  | noOtpFound
  | expired
  | maxAttemptsExceeded
  | invalidOtp (attemptsRemaining : Nat)
  | success
deriving DecidableEq

/-- `OTPService.send_otp`: store a fresh OTP dict (5-minute expiry, 3 max
attempts) under the phone number, overwriting any existing entry.  The
random code drawn by `generate_otp` is the explicit `freshCode` argument. -/
def otpServiceSendOtp (now : Nat) (store : List (String × PhoneOtp))
    (phone purpose freshCode : String) : List (String × PhoneOtp) :=
  setA store phone ⟨freshCode, purpose, now + 5 * 60, 0, 3⟩

/-- `OTPService.verify_otp`: not-found, expiry (deletes), attempts-exhaustion
(deletes), then code-and-purpose comparison; success deletes the entry, a
failed comparison increments `attempts` in place. -/
def otpServiceVerifyOtp (now : Nat) (store : List (String × PhoneOtp))
    (phone code purpose : String) :
    PhoneVerifyResult × List (String × PhoneOtp) :=
  match lookupA store phone with
  | none => (.noOtpFound, store)
  | some s =>
    if s.expiresAt < now then
      (.expired, eraseA store phone)
    else if s.maxAttempts ≤ s.attempts then
      (.maxAttemptsExceeded, eraseA store phone)
    else if s.code = code ∧ s.purpose = purpose then
      (.success, eraseA store phone)
    else
      let s' : PhoneOtp := { s with attempts := s.attempts + 1 }
      (.invalidOtp (s.maxAttempts - s'.attempts), setA store phone s')

/-- `OTPService.resend_otp`: delete any existing OTP for the phone number,
then `send_otp` a fresh one. -/
def otpServiceResendOtp (now : Nat) (store : List (String × PhoneOtp))
    (phone purpose freshCode : String) : List (String × PhoneOtp) :=
  otpServiceSendOtp now (eraseA store phone) phone purpose freshCode

/-! ### Password-reset OTP repository and service
(`app/modules/auth/repositories/password_reset_otp_repository.py`,
`app/modules/auth/models/otp.py`,
`OTPService.verify_password_reset_otp`)

The durable backend: `otp_verifications` rows.  Queries use
`.filter(email == , otp_code == , purpose == "password_reset").first()`;
rows are modelled in insertion order. -/

structure OTPVerification where
  email : String
  otpCode : String
  purpose : String
  attempts : Nat
  isVerified : Bool
  expiresAt : Nat
deriving DecidableEq

/-- The filter of `PasswordResetOTPRepository.get_by_email_and_code`. -/
def otpMatches (email code : String) (r : OTPVerification) : Bool :=
  r.email = email && r.otpCode = code && r.purpose = "password_reset"

/-- `PasswordResetOTPRepository.get_by_email_and_code`: first row matching
the given email and the presented code with purpose `password_reset`. -/
def getByEmailAndCode (db : List OTPVerification) (email code : String) :
    Option OTPVerification :=
  db.find? (otpMatches email code)

/-- `OTPVerification.is_expired` at the given time. -/
def otpIsExpired (now : Nat) (r : OTPVerification) : Bool :=
  decide (r.expiresAt < now)

/-- `OTPVerification.is_valid`: not verified and not expired. -/
def otpIsValid (now : Nat) (r : OTPVerification) : Bool :=
  !r.isVerified && !otpIsExpired now r

/-- Update the first row satisfying `p` by `f` (a row-targeted ORM commit). -/
def updateFirst (p : OTPVerification → Bool)
    (f : OTPVerification → OTPVerification) :
    List OTPVerification → List OTPVerification
  | [] => []
  | r :: rest => if p r then f r :: rest else r :: updateFirst p f rest

/-- `PasswordResetOTPRepository.mark_as_verified`: re-fetch by
(email, code) and set `is_verified` on that row. -/
def markAsVerified (db : List OTPVerification) (email code : String) :
    List OTPVerification :=
  updateFirst (otpMatches email code) (fun r => { r with isVerified := true }) db

/-- `PasswordResetOTPRepository.increment_attempts`: re-fetch by
(email, code) and add one to that row's `attempts`. -/
def incrementAttempts (db : List OTPVerification) (email code : String) :
    List OTPVerification :=
  updateFirst (otpMatches email code) (fun r => { r with attempts := r.attempts + 1 }) db

/-- `PasswordResetOTPRepository.delete_expired_otps`: delete rows with
`expires_at < now` and purpose `password_reset`. -/
def deleteExpiredOtps (now : Nat) (db : List OTPVerification) :
    List OTPVerification :=
  db.filter (fun r => !(decide (r.expiresAt < now) && decide (r.purpose = "password_reset")))

/-- `PasswordResetOTPRepository.create`: the code is
`str(random.randint(100000, 999999))`, a uniform draw modelled by the
explicit `rand` argument; the row expires `expiresInMinutes` minutes from
now and is inserted into the table. -/
def prOtpCreate (now : Nat) (db : List OTPVerification) (email : String)
    (rand : Fin 900000) (expiresInMinutes : Nat) :
    OTPVerification × List OTPVerification :=
  let code := Nat.repr (100000 + rand.val)
  let r : OTPVerification :=
    ⟨email, code, "password_reset", 0, false, now + expiresInMinutes * 60⟩
  (r, db ++ [r])

inductive PrVerifyResult where
  | invalidOtp (attemptsRemaining : Option Nat)
  | otpUsed
  | otpExpired
  | maxAttemptsExceeded
  | success
deriving DecidableEq

/-- `OTPService.verify_password_reset_otp`: load by (email, presented code);
absent rows yield `INVALID_OTP`; then the used/expired checks of
`is_valid`, the attempts cap, and the comparison, which on success marks
the row verified and sweeps expired rows, and on mismatch increments
attempts reporting `max(0, 3 - (attempts + 1))` remaining. -/
def verifyPasswordResetOtp (now : Nat) (db : List OTPVerification)
    (email code : String) : PrVerifyResult × List OTPVerification :=
  match getByEmailAndCode db email code with
  | none => (.invalidOtp none, db)
  | some r =>
    if !otpIsValid now r && r.isVerified then
      (.otpUsed, db)
    else if !otpIsValid now r && otpIsExpired now r then
      (.otpExpired, db)
    else if 3 ≤ r.attempts then
      (.maxAttemptsExceeded, db)
    else if r.otpCode = code then
      (.success, deleteExpiredOtps now (markAsVerified db email code))
    else
      (.invalidOtp (some (3 - (r.attempts + 1))), incrementAttempts db email code)

/-! ### Email verification service
(`app/modules/auth/services/email_service.py`, in-memory backend)

Same storage shape as the SMS service: `email_storage` keyed by
`email_verification:{token}`, `rate_limit_storage` keyed by
`email_rate_limit:{email}`. -/

structure EmailVerificationData where
  email : String
  createdAt : Nat
  expiresAt : Nat
  verified : Bool
deriving DecidableEq

structure EmailEntry where
  data : EmailVerificationData
  storeExpiresAt : Nat
deriving DecidableEq

def emailVerificationKey (token : String) : String :=
  "email_verification:" ++ token

def emailRlKey (email : String) : String := "email_rate_limit:" ++ email

/-- `EmailService._get_data` on the verification storage. -/
def emailGetData (now : Nat) (store : List (String × EmailEntry)) (key : String) :
    Option EmailVerificationData × List (String × EmailEntry) :=
  match lookupA store key with
  | none => (none, store)
  | some e => if now < e.storeExpiresAt then (some e.data, store)
              else (none, eraseA store key)

/-- `EmailService._check_rate_limit`: max 3 emails per hour. -/
def emailCheckRateLimit (now : Nat) (rl : List (String × RlEntry)) (email : String) :
    Bool × List (String × RlEntry) :=
  match rlGetData now rl (emailRlKey email) with
  | (none, rl') => (true, rl')
  | (some c, rl') => (decide (c < 3), rl')

/-- `EmailService._increment_rate_limit`: read the live count (default 0),
add one, and re-store with a fresh 3600-second expiry. -/
def emailIncrementRateLimit (now : Nat) (rl : List (String × RlEntry)) (email : String) :
    List (String × RlEntry) :=
  let key := emailRlKey email
  match rlGetData now rl key with
  | (cur, rl') => setA rl' key ⟨cur.getD 0 + 1, now + 3600⟩

inductive EmailVerifyResult where
  | tokenNotFound
  | alreadyVerified
  | tokenExpired
  | success
deriving DecidableEq

/-- `EmailService.verify_email_token`: not-found, already-verified, expiry
(deletes); on success the record is re-stored marked verified with a fresh
3600-second storage lifetime. -/
def verifyEmailToken (now : Nat) (store : List (String × EmailEntry))
    (token : String) : EmailVerifyResult × List (String × EmailEntry) :=
  let key := emailVerificationKey token
  match emailGetData now store key with
  | (none, store') => (.tokenNotFound, store')
  | (some d, store') =>
    if d.verified then
      (.alreadyVerified, store')
    else if d.expiresAt < now then
      (.tokenExpired, eraseA store' key)
    else
      (.success, setA store' key ⟨{ d with verified := true }, now + 3600⟩)

inductive EmailSendResult where
  | rateLimitExceeded
  | sent (token : String)
deriving DecidableEq

/-- `EmailService.send_verification_email`: rate-limit check, store the
verification data under the fresh token with a 24-hour lifetime, then
record the issuance in the rate limiter.  The token drawn by
`generate_verification_token` is the explicit `freshToken` argument. -/
def sendVerificationEmail (now : Nat) (store : List (String × EmailEntry))
    (rl : List (String × RlEntry)) (email freshToken : String) :
    EmailSendResult × List (String × EmailEntry) × List (String × RlEntry) :=
  match emailCheckRateLimit now rl email with
  | (false, rl') => (.rateLimitExceeded, store, rl')
  | (true, rl') =>
    let d : EmailVerificationData := ⟨email, now, now + 24 * 3600, false⟩
    let store' := setA store (emailVerificationKey freshToken) ⟨d, now + 24 * 3600⟩
    (.sent freshToken, store', emailIncrementRateLimit now rl' email)

/-! ### Password-reset issuance
(`PasswordResetService.send_reset_email`)

Only the caller-observable response dict is modelled; the SMTP transport
and the token row written by `PasswordResetRepository.create` (which fails
only on storage errors, outside this model) do not affect which of the
four response shapes is returned. -/

structure User where
  uid : String
  email : String
  isActive : Bool
deriving DecidableEq

/-- `UserRepository.get_by_email`. -/
def getUserByEmail (users : List User) (email : String) : Option User :=
  users.find? (fun u => u.email = email)

/-- The response dict of `send_reset_email`, with its observable fields. -/
structure ResetEmailResponse where
  success : Bool
  message : String
  errorCode : Option String
  token : Option String
deriving DecidableEq

/-- `PasswordResetService.send_reset_email`: unknown emails get a generic
success; inactive accounts get an `ACCOUNT_INACTIVE` failure; active
accounts get a success whose message (and, in development mode, token)
depends on the mode. -/
def sendResetEmail (users : List User) (email : String) (devMode : Bool)
    (freshToken : String) : ResetEmailResponse :=
  match getUserByEmail users email with
  | none =>
    ⟨true, "If an account with that email exists, a password reset link has been sent.",
      none, none⟩
  | some u =>
    if !u.isActive then
      ⟨false, "Account is inactive. Please contact support.",
        some "ACCOUNT_INACTIVE", none⟩
    else if devMode then
      ⟨true, "Password reset email sent (development mode). Check console for reset link.",
        none, some freshToken⟩
    else
      ⟨true, "Password reset email sent successfully", none, none⟩

/-! ### Secret generators

`SMSService.generate_otp` is `''.join(random.choices(string.digits,
k=length))`: `length` independent uniform draws from the ten digit
characters, modelled by the explicit `pick` argument.
`PasswordResetOTPRepository.create` draws `random.randint(100000, 999999)`
and stringifies it (see `prOtpCreate`); `passwordResetOtpCode` is that
code as a function of the draw. -/

def generate_otp (length : Nat) (pick : Nat → Fin 10) : String :=
  String.mk ((List.range length).map (fun i => Nat.digitChar (pick i).val))

def passwordResetOtpCode (rand : Fin 900000) : String :=
  Nat.repr (100000 + rand.val)

/-! ### Store lemmas -/

theorem lookupA_setA_self {α : Type} (s : List (String × α)) (k : String) (v : α) :
    lookupA (setA s k v) k = some v := by
  induction s with
  | nil => simp [setA, lookupA]
  | cons hd tl ih =>
    obtain ⟨k', w⟩ := hd
    by_cases h : k' = k
    · simp [setA, lookupA, h]
    · simp [setA, lookupA, h, ih]

theorem find?_updateFirst (p : OTPVerification → Bool)
    (f : OTPVerification → OTPVerification) (db : List OTPVerification)
    (r : OTPVerification) (h : db.find? p = some r)
    (hpf : ∀ x, p x = true → p (f x) = true) :
    (updateFirst p f db).find? p = some (f r) := by
  induction db with
  | nil => simp at h
  | cons hd tl ih =>
    by_cases hp : p hd
    · rw [List.find?_cons_of_pos _ hp] at h
      cases h
      simp only [updateFirst, if_pos hp]
      exact List.find?_cons_of_pos _ (hpf _ hp)
    · rw [List.find?_cons_of_neg _ hp] at h
      simp only [updateFirst, if_neg hp]
      rw [List.find?_cons_of_neg _ hp]
      exact ih h

theorem find?_filter_of_find? (p q : OTPVerification → Bool)
    (db : List OTPVerification) (r : OTPVerification)
    (h : db.find? p = some r) (hq : q r = true) :
    (db.filter q).find? p = some r := by
  induction db with
  | nil => simp at h
  | cons hd tl ih =>
    by_cases hp : p hd
    · rw [List.find?_cons_of_pos _ hp] at h
      cases h
      simp [List.filter_cons, hq, List.find?_cons_of_pos _ hp]
    · rw [List.find?_cons_of_neg _ hp] at h
      by_cases hqh : q hd
      · simp [List.filter_cons, hqh, List.find?_cons_of_neg _ hp, ih h]
      · simp [List.filter_cons, hqh, ih h]

/-! ### Claim theorems -/

/-- C1 (corrected, counterexample): in the SMS OTP flow a successful
verification deletes the credential, so re-presenting the same correct
secret afterwards returns the not-found outcome, not an already-consumed
one (the SMS result taxonomy has no such outcome at all). -/
theorem smsReverifyAfterSuccessIsNotFound :
    (smsVerifyOtp 10 (smsSendOtp 0 [] [] "+15551234567" "123456").2.1
        "+15551234567" "123456").1 = .success ∧
    (smsVerifyOtp 20 (smsVerifyOtp 10 (smsSendOtp 0 [] [] "+15551234567" "123456").2.1
        "+15551234567" "123456").2 "+15551234567" "123456").1
      = .otpNotFound := by
  constructor <;> rfl

/-- C1 (amended): in the password-reset-OTP flow, once a Verify call with
the correct code has returned Success, every later Verify presenting the
same correct code for that credential returns AlreadyConsumed (`OTP_USED`),
at any later (or other) time. -/
theorem passwordResetSingleConsumption
    (now now' : Nat) (db db' : List OTPVerification) (email code : String)
    (h : verifyPasswordResetOtp now db email code = (.success, db')) :
    (verifyPasswordResetOtp now' db' email code).1 = .otpUsed := by
  cases hfind : getByEmailAndCode db email code with
  | none => simp only [verifyPasswordResetOtp, hfind] at h; simp at h
  | some r =>
    simp only [verifyPasswordResetOtp, hfind] at h
    by_cases h1 : (!otpIsValid now r && r.isVerified) = true
    · rw [if_pos h1] at h; simp at h
    · rw [if_neg h1] at h
      by_cases h2 : (!otpIsValid now r && otpIsExpired now r) = true
      · rw [if_pos h2] at h; simp at h
      · rw [if_neg h2] at h
        by_cases h3 : 3 ≤ r.attempts
        · rw [if_pos h3] at h; simp at h
        · rw [if_neg h3] at h
          by_cases h4 : r.otpCode = code
          · rw [if_pos h4] at h
            simp only [Prod.mk.injEq, true_and] at h
            have hexp : otpIsExpired now r = false := by
              by_cases he : otpIsExpired now r = true
              · exfalso; exact h2 (by simp [otpIsValid, he])
              · simpa using he
            have hver : r.isVerified = false := by
              by_cases hv : r.isVerified = true
              · exfalso
                exact h1 (by simp [otpIsValid, hv, hexp])
              · simpa using hv
            have hfind' : db.find? (otpMatches email code) = some r := hfind
            have hmark : (markAsVerified db email code).find? (otpMatches email code)
                = some { r with isVerified := true } :=
              find?_updateFirst _ _ _ _ hfind'
                (fun x hx => by simpa [otpMatches] using hx)
            have hltf : decide (r.expiresAt < now) = false := by
              simpa [otpIsExpired] using hexp
            have hkeep : (deleteExpiredOtps now (markAsVerified db email code)).find?
                (otpMatches email code) = some { r with isVerified := true } := by
              unfold deleteExpiredOtps
              exact find?_filter_of_find? _ _ _ _ hmark (by simp [hltf])
            have hdb : getByEmailAndCode db' email code
                = some { r with isVerified := true } := by
              rw [← h]; exact hkeep
            simp [verifyPasswordResetOtp, hdb, otpIsValid]
          · rw [if_neg h4] at h; simp at h

/-- C1 witness: a concrete consumed credential re-verifies as
AlreadyConsumed. -/
theorem passwordResetSingleConsumptionWitness :
    (verifyPasswordResetOtp 20
      [⟨"a@b.com", "123456", "password_reset", 0, true, 600⟩]
      "a@b.com" "123456").1 = .otpUsed :=
  passwordResetSingleConsumption 10 20
    [⟨"a@b.com", "123456", "password_reset", 0, false, 600⟩]
    [⟨"a@b.com", "123456", "password_reset", 0, true, 600⟩]
    "a@b.com" "123456" (by rfl)

/-- C3 (code bug evaluated): in the password-reset-OTP flow the credential
is loaded by (email, presented code), so a Verify call presenting a wrong
code never finds the stored credential: it returns `INVALID_OTP` and leaves
the table — in particular the stored credential's `attempts` counter —
completely unchanged, instead of incrementing it. -/
theorem passwordResetWrongCodeDoesNotIncrement :
    verifyPasswordResetOtp 10
      [⟨"a@b.com", "123456", "password_reset", 0, false, 600⟩]
      "a@b.com" "654321"
    = (.invalidOtp none,
       [⟨"a@b.com", "123456", "password_reset", 0, false, 600⟩]) := by
  rfl

/-- C7 (corrected, counterexample): password-reset issuance for an email
with an existing but inactive account returns a failure
(`ACCOUNT_INACTIVE`) that is observably different from the success returned
for an unknown email, so the two runs are distinguishable. -/
theorem resetIssuanceInactiveDistinguishable :
    (sendResetEmail [⟨"u1", "a@b.com", false⟩] "a@b.com" true "tok").success = false ∧
    sendResetEmail [⟨"u1", "a@b.com", false⟩] "a@b.com" true "tok"
      ≠ sendResetEmail [] "a@b.com" true "tok" := by
  constructor
  · rfl
  · decide

/-- C7 (amended): issuance for an email with no user account reports
success with the generic message and no error code; but an existing
inactive account yields a distinguishable `ACCOUNT_INACTIVE` failure. -/
theorem resetIssuanceUnknownEmailReportsSuccess
    (users : List User) (email : String) (devMode : Bool) (tok : String)
    (hnone : getUserByEmail users email = none) :
    (sendResetEmail users email devMode tok).success = true ∧
    (sendResetEmail users email devMode tok).errorCode = none ∧
    ∀ users' v, getUserByEmail users' email = some v → v.isActive = false →
      sendResetEmail users' email devMode tok
        = ⟨false, "Account is inactive. Please contact support.",
            some "ACCOUNT_INACTIVE", none⟩ := by
  refine ⟨?_, ?_, ?_⟩
  · simp [sendResetEmail, hnone]
  · simp [sendResetEmail, hnone]
  · intro users' v hv hva
    simp [sendResetEmail, hv, hva]

/-- C8 (confirmed): Verify on a subject or token with no stored credential
returns the not-found outcome as an ordinary value, in all three flows
(SMS OTP, email verification token, phone OTP). -/
theorem verifyNotFoundIsOrdinaryResult
    (now : Nat) (smsStore : List (String × SmsEntry))
    (emailStore : List (String × EmailEntry))
    (phoneStore : List (String × PhoneOtp))
    (phone code purpose token : String)
    (h1 : lookupA smsStore (smsOtpKey phone) = none)
    (h2 : lookupA emailStore (emailVerificationKey token) = none)
    (h3 : lookupA phoneStore phone = none) :
    (smsVerifyOtp now smsStore phone code).1 = .otpNotFound ∧
    (verifyEmailToken now emailStore token).1 = .tokenNotFound ∧
    (otpServiceVerifyOtp now phoneStore phone code purpose).1 = .noOtpFound := by
  refine ⟨?_, ?_, ?_⟩
  · simp [smsVerifyOtp, smsGetData, h1]
  · simp [verifyEmailToken, emailGetData, h2]
  · simp [otpServiceVerifyOtp, h3]

/-- C8 witness: empty stores. -/
theorem verifyNotFoundIsOrdinaryResultWitness :
    (smsVerifyOtp 0 [] "+15551234567" "123456").1 = .otpNotFound ∧
    (verifyEmailToken 0 [] "tok").1 = .tokenNotFound ∧
    (otpServiceVerifyOtp 0 [] "+15551234567" "123456" "phone_verification").1
      = .noOtpFound :=
  verifyNotFoundIsOrdinaryResult 0 [] [] [] "+15551234567" "123456"
    "phone_verification" "tok" rfl rfl rfl

/-- C10 (confirmed): a successful email-token verification re-stores the
record marked verified with a fresh one-hour storage lifetime, so
re-presenting the same token strictly within one hour of the success
returns `ALREADY_VERIFIED`, while re-presenting it an hour or more later
returns `TOKEN_NOT_FOUND`. -/
theorem emailReverifyWindow (now now' : Nat)
    (store s' : List (String × EmailEntry)) (token : String)
    (h : verifyEmailToken now store token = (.success, s')) :
    (now' < now + 3600 → (verifyEmailToken now' s' token).1 = .alreadyVerified) ∧
    (now + 3600 ≤ now' → (verifyEmailToken now' s' token).1 = .tokenNotFound) := by
  cases hget : emailGetData now store (emailVerificationKey token) with
  | mk od st' =>
    simp only [verifyEmailToken, hget] at h
    cases od with
    | none => simp at h
    | some d =>
      simp only at h
      by_cases hv : d.verified = true
      · rw [if_pos hv] at h; simp at h
      · rw [if_neg hv] at h
        by_cases he : d.expiresAt < now
        · rw [if_pos he] at h; simp at h
        · rw [if_neg he] at h
          simp only [Prod.mk.injEq, true_and] at h
          have hl : lookupA s' (emailVerificationKey token)
              = some ⟨{ d with verified := true }, now + 3600⟩ := by
            rw [← h]; exact lookupA_setA_self _ _ _
          constructor
          · intro hlt
            simp [verifyEmailToken, emailGetData, hl, hlt]
          · intro hge
            have hnlt : ¬ now' < now + 3600 := by omega
            simp [verifyEmailToken, emailGetData, hl, hnlt]

/-- C10 witness: a concrete issuance at time 0, verified at time 10;
re-presented at times 3609 and 3610. -/
theorem emailReverifyWindowWitness :
    (verifyEmailToken 3609
      (verifyEmailToken 10 (sendVerificationEmail 0 [] [] "a@b.com" "tok").2.1 "tok").2
      "tok").1 = .alreadyVerified ∧
    (verifyEmailToken 3610
      (verifyEmailToken 10 (sendVerificationEmail 0 [] [] "a@b.com" "tok").2.1 "tok").2
      "tok").1 = .tokenNotFound := by
  constructor
  · exact (emailReverifyWindow 10 3609
      (sendVerificationEmail 0 [] [] "a@b.com" "tok").2.1
      (verifyEmailToken 10 (sendVerificationEmail 0 [] [] "a@b.com" "tok").2.1 "tok").2
      "tok" (by rfl)).1 (by omega)
  · exact (emailReverifyWindow 10 3610
      (sendVerificationEmail 0 [] [] "a@b.com" "tok").2.1
      (verifyEmailToken 10 (sendVerificationEmail 0 [] [] "a@b.com" "tok").2.1 "tok").2
      "tok" (by rfl)).2 (by omega)

/-! ### Single-credential step lemmas for the SMS and phone OTP flows -/

theorem smsVerifyOtp_singleton_wrong (now se a ca ex : Nat) (phone w : String)
    (codeStr : String) (hse : now < se) (hexp : ¬ ex < now)
    (hatt : a + 1 < MAX_OTP_ATTEMPTS) (hcode : ¬ codeStr = w) :
    smsVerifyOtp now [(smsOtpKey phone, ⟨⟨codeStr, a, ca, ex⟩, se⟩)] phone w
      = (.invalidOtp (MAX_OTP_ATTEMPTS - (a + 1)),
         [(smsOtpKey phone, ⟨⟨codeStr, a + 1, ca, ex⟩, now + (ex - now)⟩)]) := by
  have hatt' : ¬ MAX_OTP_ATTEMPTS ≤ a := by omega
  have hrem : 0 < MAX_OTP_ATTEMPTS - (a + 1) := by omega
  simp [smsVerifyOtp, smsGetData, lookupA, setA, hse, hexp, hatt', hcode, hrem]

theorem smsVerifyOtp_singleton_wrong_exhaust (now se a ca ex : Nat)
    (phone w codeStr : String) (hse : now < se) (hexp : ¬ ex < now)
    (hatt : a + 1 = MAX_OTP_ATTEMPTS) (hcode : ¬ codeStr = w) :
    smsVerifyOtp now [(smsOtpKey phone, ⟨⟨codeStr, a, ca, ex⟩, se⟩)] phone w
      = (.maxAttemptsExceeded, []) := by
  have hatt' : ¬ MAX_OTP_ATTEMPTS ≤ a := by omega
  have hrem : ¬ 0 < MAX_OTP_ATTEMPTS - (a + 1) := by omega
  simp [smsVerifyOtp, smsGetData, lookupA, eraseA, hse, hexp, hatt', hcode, hrem]

theorem smsSendOtp_empty (t0 : Nat) (phone code : String) :
    smsSendOtp t0 [] [] phone code
      = (.sent code, [(smsOtpKey phone, ⟨⟨code, 0, t0, t0 + 300⟩, t0 + 300⟩)],
         [(smsRlKey phone, ⟨1, t0 + 3600⟩)]) := by
  simp [smsSendOtp, smsCheckRateLimit, rlGetData, lookupA,
    smsIncrementRateLimit, setA, OTP_EXPIRE_MINUTES]

theorem otpServiceVerify_singleton_wrong (now ex a ma : Nat)
    (phone w purpose codeStr pstr : String) (hexp : ¬ ex < now)
    (hatt : a < ma) (hmm : ¬ (codeStr = w ∧ pstr = purpose)) :
    otpServiceVerifyOtp now [(phone, ⟨codeStr, pstr, ex, a, ma⟩)] phone w purpose
      = (.invalidOtp (ma - (a + 1)), [(phone, ⟨codeStr, pstr, ex, a + 1, ma⟩)]) := by
  have hatt' : ¬ ma ≤ a := by omega
  simp [otpServiceVerifyOtp, lookupA, setA, hexp, hatt', hmm]

theorem otpServiceVerify_singleton_exhausted (now ex a ma : Nat)
    (phone w purpose codeStr pstr : String) (hexp : ¬ ex < now)
    (hatt : ma ≤ a) :
    otpServiceVerifyOtp now [(phone, ⟨codeStr, pstr, ex, a, ma⟩)] phone w purpose
      = (.maxAttemptsExceeded, []) := by
  simp [otpServiceVerifyOtp, lookupA, eraseA, hexp, hatt]

/-- C2 (corrected, counterexample): in the SMS flow (phone `+15551234567`,
`max_attempts = 3`, TTL 5 minutes), the third wrong-code Verify returns
AttemptsExhausted and deletes the credential, so a fourth Verify with the
correct code returns NotFound, not AttemptsExhausted as claimed. -/
theorem smsFourthVerifyIsNotFound :
    (let st0 := (smsSendOtp 0 [] [] "+15551234567" "123456").2.1
     let s1 := smsVerifyOtp 10 st0 "+15551234567" "111111"
     let s2 := smsVerifyOtp 20 s1.2 "+15551234567" "111111"
     let s3 := smsVerifyOtp 30 s2.2 "+15551234567" "111111"
     let s4 := smsVerifyOtp 40 s3.2 "+15551234567" "123456"
     s3.1 = .maxAttemptsExceeded ∧ s4.1 = .otpNotFound) := by
  exact ⟨rfl, rfl⟩

/-- C2 (amended): with `max_attempts = 3` and an unexpired credential, the
k-th failed Verify (k = 1, 2) leaves the credential stored and reports
3 - k attempts remaining.  In the SMS flow the third wrong-code Verify
returns AttemptsExhausted and deletes the credential, so a fourth Verify,
even with the correct secret, returns NotFound.  In the phone-OTP service
the third wrong-code Verify instead returns InvalidSecret with 0 attempts
remaining, and it is the fourth Verify — even with the correct secret —
that returns AttemptsExhausted (deleting the credential). -/
theorem attemptExhaustionSequences
    (phone code wrong purpose : String) (t0 t1 t2 t3 t4 : Nat)
    (hw : ¬ code = wrong)
    (h01 : t0 ≤ t1) (h12 : t1 ≤ t2) (h23 : t2 ≤ t3) (h34 : t3 ≤ t4)
    (hexp : t4 < t0 + 300) :
    (let st0 := (smsSendOtp t0 [] [] phone code).2.1
     let s1 := smsVerifyOtp t1 st0 phone wrong
     let s2 := smsVerifyOtp t2 s1.2 phone wrong
     let s3 := smsVerifyOtp t3 s2.2 phone wrong
     let s4 := smsVerifyOtp t4 s3.2 phone code
     s1.1 = .invalidOtp 2 ∧ s2.1 = .invalidOtp 1 ∧
     s3.1 = .maxAttemptsExceeded ∧ s4.1 = .otpNotFound) ∧
    (let p0 := otpServiceSendOtp t0 [] phone purpose code
     let p1 := otpServiceVerifyOtp t1 p0 phone wrong purpose
     let p2 := otpServiceVerifyOtp t2 p1.2 phone wrong purpose
     let p3 := otpServiceVerifyOtp t3 p2.2 phone wrong purpose
     let p4 := otpServiceVerifyOtp t4 p3.2 phone code purpose
     p1.1 = .invalidOtp 2 ∧ p2.1 = .invalidOtp 1 ∧
     p3.1 = .invalidOtp 0 ∧ p4.1 = .maxAttemptsExceeded) := by
  constructor
  · rw [smsSendOtp_empty]
    simp only
    rw [smsVerifyOtp_singleton_wrong t1 (t0 + 300) 0 t0 (t0 + 300) phone wrong code
      (by omega) (by omega) (by simp [MAX_OTP_ATTEMPTS]) hw]
    simp only
    rw [smsVerifyOtp_singleton_wrong t2 (t1 + (t0 + 300 - t1)) 1 t0 (t0 + 300)
      phone wrong code
      (by omega) (by omega) (by simp [MAX_OTP_ATTEMPTS]) hw]
    simp only
    rw [smsVerifyOtp_singleton_wrong_exhaust t3 (t2 + (t0 + 300 - t2)) 2 t0 (t0 + 300)
      phone wrong code
      (by omega) (by omega) (by simp [MAX_OTP_ATTEMPTS]) hw]
    refine ⟨by simp [MAX_OTP_ATTEMPTS], by simp [MAX_OTP_ATTEMPTS], rfl, rfl⟩
  · simp only [otpServiceSendOtp, setA]
    rw [otpServiceVerify_singleton_wrong t1 (t0 + 5 * 60) 0 3 phone wrong purpose
      code purpose (by omega) (by omega) (by simp [hw])]
    simp only
    rw [otpServiceVerify_singleton_wrong t2 (t0 + 5 * 60) 1 3 phone wrong purpose
      code purpose (by omega) (by omega) (by simp [hw])]
    simp only
    rw [otpServiceVerify_singleton_wrong t3 (t0 + 5 * 60) 2 3 phone wrong purpose
      code purpose (by omega) (by omega) (by simp [hw])]
    simp only
    rw [otpServiceVerify_singleton_exhausted t4 (t0 + 5 * 60) 3 3 phone code purpose
      code purpose (by omega) (by omega)]
    simp

/-- C2 witness: the sequences at concrete inputs. -/
theorem attemptExhaustionSequencesWitness :
    (let st0 := (smsSendOtp 0 [] [] "+15551234567" "123456").2.1
     let s1 := smsVerifyOtp 10 st0 "+15551234567" "111111"
     let s2 := smsVerifyOtp 20 s1.2 "+15551234567" "111111"
     let s3 := smsVerifyOtp 30 s2.2 "+15551234567" "111111"
     let s4 := smsVerifyOtp 40 s3.2 "+15551234567" "123456"
     s1.1 = .invalidOtp 2 ∧ s2.1 = .invalidOtp 1 ∧
     s3.1 = .maxAttemptsExceeded ∧ s4.1 = .otpNotFound) ∧
    (let p0 := otpServiceSendOtp 0 [] "+15551234567" "phone_verification" "123456"
     let p1 := otpServiceVerifyOtp 10 p0 "+15551234567" "111111" "phone_verification"
     let p2 := otpServiceVerifyOtp 20 p1.2 "+15551234567" "111111" "phone_verification"
     let p3 := otpServiceVerifyOtp 30 p2.2 "+15551234567" "111111" "phone_verification"
     let p4 := otpServiceVerifyOtp 40 p3.2 "+15551234567" "123456" "phone_verification"
     p1.1 = .invalidOtp 2 ∧ p2.1 = .invalidOtp 1 ∧
     p3.1 = .invalidOtp 0 ∧ p4.1 = .maxAttemptsExceeded) :=
  attemptExhaustionSequences "+15551234567" "123456" "111111" "phone_verification"
    0 10 20 30 40 (by decide) (by omega) (by omega) (by omega) (by omega) (by omega)

/-- C4 (corrected, counterexample): in the password-reset-OTP flow, a
Verify call on an expired stored credential does not return Expired when
the presented secret is wrong (the lookup by presented code misses, giving
`INVALID_OTP`) nor when the credential is also consumed (`OTP_USED` wins). -/
theorem passwordResetExpiryNotDominant :
    (verifyPasswordResetOtp 200
      [⟨"a@b.com", "123456", "password_reset", 0, false, 100⟩]
      "a@b.com" "654321").1 = .invalidOtp none ∧
    (verifyPasswordResetOtp 200
      [⟨"a@b.com", "123456", "password_reset", 0, true, 100⟩]
      "a@b.com" "123456").1 = .otpUsed := by
  constructor <;> rfl

/-- C4 (amended): in the SMS and phone-OTP flows a Verify call on a stored,
store-level-live credential with `now > expires_at` returns Expired
regardless of attempts remaining and of the presented secret; in the
password-reset-OTP flow this holds only when the presented code equals the
stored code and the credential is not consumed. -/
theorem expiryDominanceByFlow
    (now : Nat) (smsStore : List (String × SmsEntry))
    (phoneStore : List (String × PhoneOtp)) (db : List OTPVerification)
    (phone code purpose email : String)
    (e : SmsEntry) (s : PhoneOtp) (r : OTPVerification)
    (h1 : lookupA smsStore (smsOtpKey phone) = some e)
    (h1l : now < e.storeExpiresAt) (h1e : e.data.expiresAt < now)
    (h2 : lookupA phoneStore phone = some s) (h2e : s.expiresAt < now)
    (h3 : getByEmailAndCode db email code = some r)
    (h3e : r.expiresAt < now) (h3v : r.isVerified = false) :
    (smsVerifyOtp now smsStore phone code).1 = .otpExpired ∧
    (otpServiceVerifyOtp now phoneStore phone code purpose).1 = .expired ∧
    (verifyPasswordResetOtp now db email code).1 = .otpExpired := by
  refine ⟨?_, ?_, ?_⟩
  · simp [smsVerifyOtp, smsGetData, h1, h1l, h1e]
  · simp [otpServiceVerifyOtp, h2, h2e]
  · simp [verifyPasswordResetOtp, h3, otpIsValid, otpIsExpired, h3e, h3v]

/-- C4 witness: the three flows at concrete expired credentials. -/
theorem expiryDominanceByFlowWitness :
    (smsVerifyOtp 400
      [(smsOtpKey "+15551234567", ⟨⟨"123456", 0, 0, 300⟩, 500⟩)]
      "+15551234567" "123456").1 = .otpExpired ∧
    (otpServiceVerifyOtp 400 [("+15551234567", ⟨"123456", "phone_verification", 300, 0, 3⟩)]
      "+15551234567" "123456" "phone_verification").1 = .expired ∧
    (verifyPasswordResetOtp 400
      [⟨"a@b.com", "123456", "password_reset", 0, false, 300⟩]
      "a@b.com" "123456").1 = .otpExpired :=
  expiryDominanceByFlow 400
    [(smsOtpKey "+15551234567", ⟨⟨"123456", 0, 0, 300⟩, 500⟩)]
    [("+15551234567", ⟨"123456", "phone_verification", 300, 0, 3⟩)]
    [⟨"a@b.com", "123456", "password_reset", 0, false, 300⟩]
    "+15551234567" "123456" "phone_verification" "a@b.com"
    ⟨⟨"123456", 0, 0, 300⟩, 500⟩ ⟨"123456", "phone_verification", 300, 0, 3⟩
    ⟨"a@b.com", "123456", "password_reset", 0, false, 300⟩
    (by decide) (by decide) (by decide) (by decide) (by decide)
    (by decide) (by decide) (by decide)

/-- C5 (corrected, counterexample): three issuances for the same email at
times 0, 100, 200 seconds; the fourth call (within the hour) is rate
limited as the claim says, but the call at time 3601 — strictly after the
window that began at the first issuance plus one hour — is still rate
limited, because each issuance re-stored the counter with a fresh one-hour
expiry (the boundary moved to 200 + 3600). -/
theorem rateLimitWindowBoundaryMoves :
    (let i1 := sendVerificationEmail 0 [] [] "a@b.com" "t1"
     let i2 := sendVerificationEmail 100 i1.2.1 i1.2.2 "a@b.com" "t2"
     let i3 := sendVerificationEmail 200 i2.2.1 i2.2.2 "a@b.com" "t3"
     let i4 := sendVerificationEmail 300 i3.2.1 i3.2.2 "a@b.com" "t4"
     let i5 := sendVerificationEmail 3601 i4.2.1 i4.2.2 "a@b.com" "t5"
     i4.1 = .rateLimitExceeded ∧ i5.1 = .rateLimitExceeded) := by
  refine ⟨rfl, rfl⟩

/-- C5 (amended): the fourth Issue within the window is RateLimited while
the live counter holds 3, but the counter's expiry is re-set to one hour
after the most recent issuance — `_increment_rate_limit` always re-stores
with a 3600-second lifetime — so issuance succeeds again exactly when the
last such boundary has passed, not at first-issuance + one hour. -/
theorem rateLimitBoundaryIsLastIssuancePlusHour
    (now : Nat) (store : List (String × EmailEntry))
    (rl : List (String × RlEntry)) (email tok : String) (e : RlEntry)
    (h : lookupA rl (emailRlKey email) = some e) :
    (now < e.storeExpiresAt → 3 ≤ e.count →
      (sendVerificationEmail now store rl email tok).1 = .rateLimitExceeded) ∧
    (e.storeExpiresAt ≤ now →
      (sendVerificationEmail now store rl email tok).1 = .sent tok) ∧
    lookupA (emailIncrementRateLimit now rl email) (emailRlKey email)
      = some ⟨(rlGetData now rl (emailRlKey email)).1.getD 0 + 1, now + 3600⟩ := by
  refine ⟨?_, ?_, ?_⟩
  · intro hlive hc
    have hc' : ¬ e.count < 3 := by omega
    simp [sendVerificationEmail, emailCheckRateLimit, rlGetData, h, hlive, hc']
  · intro hdead
    have hnl : ¬ now < e.storeExpiresAt := by omega
    simp [sendVerificationEmail, emailCheckRateLimit, rlGetData, h, hnl]
  · cases hget : rlGetData now rl (emailRlKey email) with
    | mk cur rl' =>
      simp only [emailIncrementRateLimit, hget]
      exact lookupA_setA_self _ _ _

/-- C5 witness: a concrete live exhausted counter, a concrete dead counter,
and the refreshed boundary. -/
theorem rateLimitBoundaryWitness :
    (sendVerificationEmail 3601 [] [(emailRlKey "a@b.com", ⟨3, 3800⟩)]
      "a@b.com" "t5").1 = .rateLimitExceeded ∧
    (sendVerificationEmail 3800 [] [(emailRlKey "a@b.com", ⟨3, 3800⟩)]
      "a@b.com" "t6").1 = .sent "t6" ∧
    lookupA (emailIncrementRateLimit 42 [(emailRlKey "a@b.com", ⟨3, 3800⟩)]
        "a@b.com") (emailRlKey "a@b.com")
      = some ⟨(rlGetData 42 [(emailRlKey "a@b.com", ⟨3, 3800⟩)]
          (emailRlKey "a@b.com")).1.getD 0 + 1, 42 + 3600⟩ := by
  have h := rateLimitBoundaryIsLastIssuancePlusHour 3601 []
    [(emailRlKey "a@b.com", ⟨3, 3800⟩)] "a@b.com" "t5" ⟨3, 3800⟩ (by rfl)
  have h2 := rateLimitBoundaryIsLastIssuancePlusHour 3800 []
    [(emailRlKey "a@b.com", ⟨3, 3800⟩)] "a@b.com" "t6" ⟨3, 3800⟩ (by rfl)
  have h3 := rateLimitBoundaryIsLastIssuancePlusHour 42 []
    [(emailRlKey "a@b.com", ⟨3, 3800⟩)] "a@b.com" "t7" ⟨3, 3800⟩ (by rfl)
  exact ⟨h.1 (by decide) (by decide), h2.2.1 (by decide), h3.2.2⟩

/-- C6 (corrected, counterexample): in the phone-OTP service the store is
keyed by phone number, so a second issuance overwrites the prior
credential: after issuing code 111111 and then 222222 for the same phone
and purpose, presenting the first code fails with InvalidSecret. -/
theorem phoneOtpResendInvalidatesPrior :
    (otpServiceVerifyOtp 20
      (otpServiceSendOtp 10
        (otpServiceSendOtp 0 [] "+15551234567" "phone_verification" "111111")
        "+15551234567" "phone_verification" "222222")
      "+15551234567" "111111" "phone_verification").1 = .invalidOtp 2 := by
  rfl

/-- C6 (amended): in the durable password-reset-OTP flow, issuing a second
credential for the same email appends a new row, and a Verify presenting
the first credential's still-unexpired code still succeeds. -/
theorem passwordResetResendKeepsPrior
    (t0 t1 t2 : Nat) (email : String) (r1 r2 : Fin 900000)
    (ht : t2 ≤ t0 + 600) :
    (verifyPasswordResetOtp t2
      (prOtpCreate t1 (prOtpCreate t0 [] email r1 10).2 email r2 10).2
      email ((prOtpCreate t0 [] email r1 10).1).otpCode).1 = .success := by
  simp only [prOtpCreate, List.nil_append]
  have hmatch : otpMatches email (Nat.repr (100000 + r1.val))
      ⟨email, Nat.repr (100000 + r1.val), "password_reset", 0, false, t0 + 10 * 60⟩
      = true := by
    simp [otpMatches]
  have hfind : getByEmailAndCode
      [⟨email, Nat.repr (100000 + r1.val), "password_reset", 0, false, t0 + 10 * 60⟩,
       ⟨email, Nat.repr (100000 + r2.val), "password_reset", 0, false, t1 + 10 * 60⟩]
      email (Nat.repr (100000 + r1.val))
      = some ⟨email, Nat.repr (100000 + r1.val), "password_reset", 0, false, t0 + 10 * 60⟩ := by
    unfold getByEmailAndCode
    exact List.find?_cons_of_pos _ hmatch
  have hnexp : ¬ (t0 + 10 * 60 < t2) := by omega
  simp [verifyPasswordResetOtp, hfind, otpIsValid, otpIsExpired, hnexp]

/-- C6 witness: concrete times and draws. -/
theorem passwordResetResendKeepsPriorWitness :
    (verifyPasswordResetOtp 500
      (prOtpCreate 100 (prOtpCreate 0 [] "a@b.com" ⟨23456, by decide⟩ 10).2
        "a@b.com" ⟨77777, by decide⟩ 10).2
      "a@b.com" ((prOtpCreate 0 [] "a@b.com" ⟨23456, by decide⟩ 10).1).otpCode).1
      = .success :=
  passwordResetResendKeepsPrior 0 100 500 "a@b.com" ⟨23456, by decide⟩
    ⟨77777, by decide⟩ (by omega)

/-- C7 witness: the empty user table, and a concrete inactive account. -/
theorem resetIssuanceUnknownEmailWitness :
    (sendResetEmail [] "a@b.com" true "tok").success = true ∧
    (sendResetEmail [] "a@b.com" true "tok").errorCode = none ∧
    sendResetEmail [⟨"u1", "c@d.com", false⟩] "c@d.com" true "tok"
      = ⟨false, "Account is inactive. Please contact support.",
          some "ACCOUNT_INACTIVE", none⟩ :=
  ⟨(resetIssuanceUnknownEmailReportsSuccess [] "a@b.com" true "tok" rfl).1,
   (resetIssuanceUnknownEmailReportsSuccess [] "a@b.com" true "tok" rfl).2.1,
   (resetIssuanceUnknownEmailReportsSuccess [] "c@d.com" true "tok"
      (by rfl)).2.2 [⟨"u1", "c@d.com", false⟩] ⟨"u1", "c@d.com", false⟩ rfl rfl⟩

/-! ### Decimal representation lemmas

`Nat.repr` (Lean's decimal printer, matching Python `str` on non-negative
integers) is `(Nat.toDigitsCore 10 (n+1) n []).asString`.  The lemmas
below characterise its head digit, length and character set. -/

theorem digitChar_isDigit (m : Nat) (hm : m < 10) :
    (Nat.digitChar m).isDigit = true := by
  interval_cases m <;> decide

theorem digitChar_lt_ten_ne_zero_char (m : Nat) (h0 : 0 < m) (hm : m < 10) :
    Nat.digitChar m ≠ '0' := by
  interval_cases m <;> decide

theorem toDigitsCore_head_digit (fuel : Nat) :
    ∀ (n : Nat) (ds : List Char), 0 < n → n < 10 ^ fuel →
      ∃ d, 0 < d ∧ d < 10 ∧
        (Nat.toDigitsCore 10 fuel n ds).head? = some (Nat.digitChar d) := by
  induction fuel with
  | zero => intro n ds h1 h2; simp at h2; omega
  | succ f ih =>
    intro n ds h1 h2
    simp only [Nat.toDigitsCore]
    by_cases hq : n / 10 = 0
    · rw [if_pos hq]
      refine ⟨n % 10, by omega, by omega, rfl⟩
    · rw [if_neg hq]
      apply ih
      · omega
      · have hlt : n < 10 * 10 ^ f := by
          rw [pow_succ] at h2; omega
        exact Nat.div_lt_of_lt_mul hlt

theorem toDigitsCore_length_eq (fuel : Nat) :
    ∀ (n : Nat) (ds : List Char), 0 < n → n < 10 ^ fuel →
      (Nat.toDigitsCore 10 fuel n ds).length = Nat.log 10 n + 1 + ds.length := by
  induction fuel with
  | zero => intro n ds h1 h2; simp at h2; omega
  | succ f ih =>
    intro n ds h1 h2
    simp only [Nat.toDigitsCore]
    by_cases hq : n / 10 = 0
    · rw [if_pos hq]
      have hlt : n < 10 := by omega
      rw [Nat.log_eq_zero_iff.mpr (Or.inl hlt)]
      simp [Nat.add_comm]
    · rw [if_neg hq]
      have h10 : 10 ≤ n := by
        rcases Nat.lt_or_ge n 10 with hlt | hge
        · exact absurd (Nat.div_eq_of_lt hlt) hq
        · exact hge
      have hdiv : n / 10 < 10 ^ f := by
        have hlt : n < 10 * 10 ^ f := by rw [pow_succ] at h2; omega
        exact Nat.div_lt_of_lt_mul hlt
      rw [ih (n / 10) _ (by omega) hdiv]
      have hlog : Nat.log 10 (n / 10) + 1 = Nat.log 10 n := by
        rw [Nat.log_div_base]
        have hpos : 0 < Nat.log 10 n := Nat.log_pos (by norm_num) h10
        omega
      simp only [List.length_cons]
      omega

theorem toDigitsCore_all_digits (fuel : Nat) :
    ∀ (n : Nat) (ds : List Char), (∀ c ∈ ds, c.isDigit = true) →
      ∀ c ∈ Nat.toDigitsCore 10 fuel n ds, c.isDigit = true := by
  induction fuel with
  | zero => intro n ds hds; simpa [Nat.toDigitsCore] using hds
  | succ f ih =>
    intro n ds hds
    have hd : (Nat.digitChar (n % 10)).isDigit = true :=
      digitChar_isDigit _ (Nat.mod_lt _ (by norm_num))
    simp only [Nat.toDigitsCore]
    by_cases hq : n / 10 = 0
    · rw [if_pos hq]
      intro c hc
      rcases List.mem_cons.mp hc with rfl | hc'
      · exact hd
      · exact hds c hc'
    · rw [if_neg hq]
      apply ih
      intro c hc
      rcases List.mem_cons.mp hc with rfl | hc'
      · exact hd
      · exact hds c hc'

theorem repr_bound (n : Nat) : n < 10 ^ (n + 1) := by
  calc n < 10 ^ n := Nat.lt_pow_self (by norm_num) n
    _ ≤ 10 ^ (n + 1) := Nat.pow_le_pow_right (by norm_num) (Nat.le_succ n)

theorem repr_head_ne_zero_char (n : Nat) (h : 0 < n) :
    (Nat.repr n).data.head? ≠ some '0' := by
  obtain ⟨d, hd0, hd10, hhead⟩ :=
    toDigitsCore_head_digit (n + 1) n [] h (repr_bound n)
  intro hcontra
  rw [show (Nat.repr n).data = Nat.toDigitsCore 10 (n + 1) n [] from rfl] at hcontra
  rw [hhead] at hcontra
  exact digitChar_lt_ten_ne_zero_char d hd0 hd10 (by injection hcontra)

theorem repr_length_of_bounds (n k : Nat) (h1 : 10 ^ k ≤ n) (h2 : n < 10 ^ (k + 1)) :
    (Nat.repr n).length = k + 1 := by
  have h0 : 0 < n := lt_of_lt_of_le (Nat.pos_pow_of_pos k (by norm_num)) h1
  have hlog : Nat.log 10 n = k := Nat.log_eq_of_pow_le_of_lt_pow h1 h2
  have hlen := toDigitsCore_length_eq (n + 1) n [] h0 (repr_bound n)
  rw [show (Nat.repr n).length = (Nat.toDigitsCore 10 (n + 1) n []).length from rfl]
  rw [hlen, hlog]
  simp

theorem repr_all_digits (n : Nat) :
    ∀ c ∈ (Nat.repr n).data, c.isDigit = true := by
  rw [show (Nat.repr n).data = Nat.toDigitsCore 10 (n + 1) n [] from rfl]
  exact toDigitsCore_all_digits (n + 1) n [] (by simp)

/-- C9 (corrected, counterexample): the password-reset OTP generator is
`str(random.randint(100000, 999999))`, whose support contains no code with
a leading zero — refuting the claim that leading-zero codes occur in that
flow. -/
theorem passwordResetCodeNeverLeadingZero :
    ¬ ∃ r : Fin 900000, (passwordResetOtpCode r).data.head? = some '0' := by
  rintro ⟨r, hr⟩
  exact repr_head_ne_zero_char (100000 + r.val) (by omega) hr

/-- C9 (amended): the SMS/phone generator (`random.choices` over the digit
characters) returns a digit string of exactly the requested length, and
leading zeros occur (the all-zero draw yields a code starting with '0');
the password-reset generator returns a 6-digit numeric string too, but its
first character is never '0', since the underlying draw is an integer
uniform on [100000, 999999]. -/
theorem secretGeneratorContract :
    (∀ (length : Nat) (pick : Nat → Fin 10),
      (generate_otp length pick).length = length ∧
      ∀ c ∈ (generate_otp length pick).data, c.isDigit = true) ∧
    (∃ pick : Nat → Fin 10, (generate_otp 6 pick).data.head? = some '0') ∧
    (∀ r : Fin 900000,
      (passwordResetOtpCode r).length = 6 ∧
      (∀ c ∈ (passwordResetOtpCode r).data, c.isDigit = true) ∧
      (passwordResetOtpCode r).data.head? ≠ some '0') := by
  refine ⟨?_, ?_, ?_⟩
  · intro length pick
    constructor
    · simp [generate_otp, String.length]
    · intro c hc
      simp only [generate_otp, String.mk] at hc
      rcases List.mem_map.mp hc with ⟨i, _, rfl⟩
      exact digitChar_isDigit _ (pick i).isLt
  · exact ⟨fun _ => ⟨0, by norm_num⟩, rfl⟩
  · intro r
    refine ⟨?_, ?_, ?_⟩
    · have : (100000 + r.val) < 10 ^ (5 + 1) := by
        have := r.isLt
        norm_num
        omega
      exact repr_length_of_bounds (100000 + r.val) 5 (by norm_num) this
    · exact repr_all_digits (100000 + r.val)
    · exact repr_head_ne_zero_char (100000 + r.val) (by omega)

/-- C9 witness: concrete draws for both generators. -/
theorem secretGeneratorContractWitness :
    (generate_otp 6 (fun _ => 2)).length = 6 ∧
    (passwordResetOtpCode ⟨23456, by decide⟩).length = 6 ∧
    (passwordResetOtpCode ⟨23456, by decide⟩).data.head? ≠ some '0' :=
  ⟨(secretGeneratorContract.1 6 (fun _ => 2)).1,
   (secretGeneratorContract.2.2 ⟨23456, by decide⟩).1,
   (secretGeneratorContract.2.2 ⟨23456, by decide⟩).2.2⟩

end ProzVerify
